import Mathlib

/-!
Shallow embedding of the SPARK-AI-AGENT voice intake server.

The repository has two drafts of the same design:
* `src/server.js` — the stage-machine draft (stages `need_category`,
  `need_service_type`, `need_job_type`, `need_property_and_postcode`, `next`);
* `src/unnamed/part_000` — an earlier draft keyed off `collectedData` fields
  rather than an explicit stage.

Each Lean definition below transcribes one function of the source.  JavaScript
strings are modelled as Lean `String`; `String.prototype.includes`,
`toLowerCase` and `trim` are modelled by executable functions on the
character list (`String.data`); JS truthiness of an optional string field
(`undefined` and `""` are falsy) is modelled by `falsy : Option String → Bool`.
The Express handler `app.post("/call/input")` is modelled as the pure turn
function `handleInput : CallSession → String → CallSession × String`
returning the updated session and the prompt text handed to `sayGather`.
-/

/-- Characters removed by JS `String.prototype.trim` (the forms that occur in
speech input: space, tab, newline, carriage return, form feed, vertical tab). -/
def isJsWhitespace (c : Char) : Bool :=
  c = ' ' || c = '\t' || c = '\n' || c = '\r' || c = '\x0c' || c = '\x0b'

/-- JS `text.trim()`: strip leading and trailing whitespace. -/
def trimStr (s : String) : String :=
  ⟨((s.data.dropWhile isJsWhitespace).reverse.dropWhile isJsWhitespace).reverse⟩

/-- JS `text.toLowerCase()` on the ASCII range (all cue phrases are ASCII). -/
def lowerStr (s : String) : String :=
  ⟨s.data.map Char.toLower⟩

/-- `needle` occurs at the start of `l`. -/
def isPrefixOfL : List Char → List Char → Bool
  | [], _ => true
  | _ :: _, [] => false
  | a :: as, b :: bs => a == b && isPrefixOfL as bs

/-- JS `hay.includes(needle)`: substring occurrence. -/
def hasSubList (needle : List Char) : List Char → Bool
  | [] => isPrefixOfL needle []
  | c :: rest => isPrefixOfL needle (c :: rest) || hasSubList needle rest

/-- JS `hay.includes(needle)` on strings. -/
def includesStr (hay needle : String) : Bool :=
  hasSubList needle.data hay.data

/-- JS truthiness test `!x` for an optional string field:
`undefined` (`none`) and the empty string are falsy. -/
def falsy : Option String → Bool
  | none => true
  | some s => s == ""

/-- Fields of `state.data` written by `src/server.js`; a field is `none`
until the corresponding assignment has run. -/
structure CallData where
  service_category : Option String := none
  service_type_raw : Option String := none
  commercial_service_type : Option String := none
  domestic_service_type : Option String := none
  job_type : Option String := none
  property_and_postcode_raw : Option String := none
deriving DecidableEq, Repr

/-- One entry of the `callState` map of `src/server.js`:
`{ transcript: [], stage: "start", data: {} }` shaped records. -/
structure CallSession where
  transcript : List String
  stage : String
  data : CallData
deriving DecidableEq, Repr

/-- `getState`: the record lazily created for a callId first seen by
`/call/input` (`{ transcript: [], stage: "start", data: {} }`). -/
def initialSession : CallSession :=
  { transcript := [], stage := "start", data := {} }

/-- `/call/start`: the record installed when a call starts
(`{ transcript: [], stage: "need_category", data: {} }`). -/
def startSession : CallSession :=
  { transcript := [], stage := "need_category", data := {} }

/-- `containsDollar` of `src/server.js` (identical in `part_000`). -/
def containsDollar (text : String) : Bool :=
  let t := lowerStr text
  includesStr t "$" || includesStr t "usd" || includesStr t "dollar" || includesStr t "bucks"

/-- The fixed replacement prompt of `enforceGbpSpeech` in `src/server.js`. -/
def gbpFixedPrompt : String :=
  "Sorry, that’s in pounds. I will quote in £ only. Is the cleaning for a home or a business premises?"

/-- `enforceGbpSpeech` of `src/server.js`: sanitises system-authored speech
before it reaches `gather.say` (`if (!text) return text` is the JS falsy test,
which for a string argument means `text === ""`). -/
def enforceGbpSpeech (text : String) : String :=
  if text = "" then text
  else if containsDollar text then gbpFixedPrompt
  else text

/-- The fixed replacement prompt of `ensureGbpOnly` in `src/unnamed/part_000`. -/
def gbpFixedPrompt2 : String :=
  "Sorry, I only quote in pounds. Is the cleaning for a home or for a business premises?"

/-- `ensureGbpOnly` of `src/unnamed/part_000`. -/
def ensureGbpOnly (text : String) : String :=
  if containsDollar text then gbpFixedPrompt2 else text

/-- `domesticHints` of `detectCategory` in `src/server.js`. -/
def domesticHints : List String :=
  ["home", "house", "flat", "apartment", "studio", "tenancy", "landlord", "move out", "move-out"]

/-- `commercialHints` of `detectCategory` in `src/server.js` (the `part_000`
draft uses the identical list). -/
def commercialHints : List String :=
  ["office", "shop", "warehouse", "school", "clinic", "gym", "venue", "site", "business", "restaurant", "workplace"]

/-- `detectCategory` of `src/server.js`. -/
def detectCategory (text : String) : String :=
  let t := lowerStr text
  let d := domesticHints.any (fun x => includesStr t x)
  let c := commercialHints.any (fun x => includesStr t x)
  if d && !c then "domestic"
  else if c && !d then "commercial"
  else ""

/-- The category computed by the `need_category` branch of `/call/input`:
`detectCategory` first, then the direct-answer fallback
(`home`/`domestic` sets `"domestic"`, then `business`/`commercial`
overwrites with `"commercial"`), run only when `detectCategory` returned `""`. -/
def categoryOf (speech : String) : String :=
  let cat0 := detectCategory speech
  if cat0 = "" then
    let t := lowerStr speech
    let cat1 := if includesStr t "home" || includesStr t "domestic" then "domestic" else cat0
    if includesStr t "business" || includesStr t "commercial" then "commercial" else cat1
  else cat0

/-- The one-time cue test of the `need_job_type` branch:
`t.includes("one") || t.includes("once") || t.includes("one-off") || t.includes("one off")`. -/
def oneTimeMatch (t : String) : Bool :=
  includesStr t "one" || includesStr t "once" || includesStr t "one-off" || includesStr t "one off"

/-- The regular/ongoing cue test of the `need_job_type` branch:
`t.includes("ongoing") || t.includes("regular") || t.includes("weekly") || t.includes("monthly") || t.includes("recurring")`. -/
def regularMatch (t : String) : Bool :=
  includesStr t "ongoing" || includesStr t "regular" || includesStr t "weekly" || includesStr t "monthly" || includesStr t "recurring"

/-- The generic empty-speech re-prompt of `/call/input` in `src/server.js`. -/
def didntCatchPrompt : String :=
  "Sorry, I didn’t catch that. Is the cleaning for a home or for a business premises?"

/-- The `need_category` clarifying re-prompt of `src/server.js`. -/
def categoryReprompt : String :=
  "Thanks. Is it for a home, like a flat or house, or for a business, like an office or shop?"

/-- Prompt after a commercial category is accepted (`src/server.js`). -/
def commercialTypePrompt : String :=
  "Thanks. What type of commercial cleaning do you need? For example regular commercial cleaning, deep clean, post-construction, or disinfection."

/-- Prompt after a domestic category is accepted (`src/server.js`). -/
def domesticTypePrompt : String :=
  "Thanks. What type of domestic cleaning do you need? For example end of tenancy, deep clean, regular cleaning, post-construction, or disinfection."

/-- Prompt entering the `need_job_type` stage (`src/server.js`). -/
def jobTypePrompt : String :=
  "Is this a one-time clean or an ongoing service?"

/-- The `need_job_type` clarifying re-prompt of `src/server.js`. -/
def jobReprompt : String :=
  "Just to confirm, is it a one-time clean, or ongoing regular visits?"

/-- Prompt entering the `need_property_and_postcode` stage (`src/server.js`). -/
def propertyPrompt : String :=
  "Thanks. What’s the property type and postcode?"

/-- Prompt after the property/postcode is captured (`src/server.js`). -/
def roomsPrompt : String :=
  "Thanks. Next I will ask about rooms and any extras. For now, tell me the number of bedrooms and bathrooms."

/-- The default fallback prompt of `/call/input` in `src/server.js`. -/
def defaultPrompt : String :=
  "Thanks. I will ask the next detail. What’s the postcode?"

/-- The `/call/input` handler of `src/server.js` as a pure turn function:
takes the session record and the raw `SpeechResult`, returns the updated
record and the prompt text handed to `sayGather` (which renders
`enforceGbpSpeech` of it).  Transcribed branch by branch:
`speech` is the trimmed input; a non-empty turn is pushed onto the
transcript before the stage machine runs; each stage branch mirrors the
corresponding `if (state.stage === ...)` block, early `return`s becoming
the returned pair. -/
def handleInput (state : CallSession) (speechRaw : String) : CallSession × String :=
  let speech := trimStr speechRaw
  let state1 :=
    if speech = "" then state
    else { state with transcript := state.transcript ++ [speech] }
  if speech = "" then
    (state1, didntCatchPrompt)
  else if state1.stage = "need_category" then
    let category := categoryOf speech
    if category = "" then
      (state1, categoryReprompt)
    else
      let state2 :=
        { state1 with
            data := { state1.data with service_category := some category },
            stage := "need_service_type" }
      if category = "commercial" then (state2, commercialTypePrompt)
      else (state2, domesticTypePrompt)
  else if state1.stage = "need_service_type" then
    let d1 := { state1.data with service_type_raw := some speech }
    if d1.service_category = some "commercial" then
      ({ state1 with
           data := { d1 with commercial_service_type := some speech,
                             domestic_service_type := some "" },
           stage := "need_job_type" },
       jobTypePrompt)
    else
      ({ state1 with
           data := { d1 with domestic_service_type := some speech,
                             commercial_service_type := some "" },
           stage := "need_property_and_postcode" },
       propertyPrompt)
  else if state1.stage = "need_job_type" then
    let t := lowerStr speech
    let j1 := if oneTimeMatch t then some "one_time" else state1.data.job_type
    let j2 := if regularMatch t then some "regular" else j1
    let state2 := { state1 with data := { state1.data with job_type := j2 } }
    if falsy state2.data.job_type then
      (state2, jobReprompt)
    else
      ({ state2 with stage := "need_property_and_postcode" }, propertyPrompt)
  else if state1.stage = "need_property_and_postcode" then
    ({ state1 with
         data := { state1.data with property_and_postcode_raw := some speech },
         stage := "next" },
     roomsPrompt)
  else
    (state1, defaultPrompt)

/-- A sequence of `/call/input` turns applied to a session (prompts dropped). -/
def runTurns (s : CallSession) : List String → CallSession
  | [] => s
  | r :: rs => runTurns (handleInput s r).1 rs

/-- The forward order of the stage machine of `src/server.js`
(§4.2 of the spec); stage values outside the machine map to 0. -/
def stageIdx (s : String) : Nat :=
  if s = "start" then 0
  else if s = "need_category" then 1
  else if s = "need_service_type" then 2
  else if s = "need_job_type" then 3
  else if s = "need_property_and_postcode" then 4
  else if s = "next" then 5
  else 0

/-- Fields of `state.data` read or written by `src/unnamed/part_000`
(`service_type` is read by the handler but never assigned anywhere). -/
structure CallData2 where
  service_category : Option String := none
  service_type : Option String := none
deriving DecidableEq, Repr

/-- One entry of the `callState` map of `src/unnamed/part_000`. -/
structure CallSession2 where
  stage : String
  transcript : List String
  data : CallData2
deriving DecidableEq, Repr

/-- `domesticHints` of `src/unnamed/part_000` (no "move-out" entry, and
"move out" precedes "landlord"). -/
def domesticHints2 : List String :=
  ["home", "house", "flat", "apartment", "studio", "tenancy", "move out", "landlord"]

/-- Generic empty-speech re-prompt of `part_000`. -/
def didntCatchPrompt2 : String :=
  "Sorry, I didn’t catch that. Is this for a home or a business premises?"

/-- Category clarifying re-prompt of `part_000`. -/
def categoryReprompt2 : String :=
  "Thanks. Is the cleaning for a home or for a business premises?"

/-- Domestic service-type prompt of `part_000`. -/
def domesticTypePrompt2 : String :=
  "What type of domestic cleaning do you need. End of tenancy, deep clean, regular cleaning, post-construction, or disinfection?"

/-- Commercial service-type prompt of `part_000`. -/
def commercialTypePrompt2 : String :=
  "What type of commercial cleaning do you need. Regular commercial cleaning, deep clean, post-construction, or disinfection?"

/-- Placeholder next-step prompt of `part_000`. -/
def placeholderPrompt2 : String :=
  "Thanks. What is the property type and the postcode?"

/-- The `/call/input` handler of `src/unnamed/part_000` as a pure turn
function.  The category is written only under the not-yet-set guard
`if (!state.data.service_category)`; inside the guard the two assignments
run in sequence (their conditions are mutually exclusive). -/
def handleInput2 (state : CallSession2) (speechRaw : String) : CallSession2 × String :=
  let speech := trimStr speechRaw
  let state1 :=
    if speech = "" then state
    else { state with transcript := state.transcript ++ [speech] }
  if speech = "" then
    (state1, didntCatchPrompt2)
  else
    let lower := lowerStr speech
    let md := domesticHints2.any (fun x => includesStr lower x)
    let mc := commercialHints.any (fun x => includesStr lower x)
    let sc0 := state1.data.service_category
    let sc1 := if falsy sc0 then (if md && !mc then some "domestic" else sc0) else sc0
    let sc2 := if falsy sc0 then (if mc && !md then some "commercial" else sc1) else sc1
    let state2 := { state1 with data := { state1.data with service_category := sc2 } }
    if falsy state2.data.service_category then
      (state2, categoryReprompt2)
    else if falsy state2.data.service_type then
      if state2.data.service_category = some "domestic" then (state2, domesticTypePrompt2)
      else (state2, commercialTypePrompt2)
    else
      (state2, placeholderPrompt2)

/-! ## Shared lemmas about single turns -/

/-- A turn whose `SpeechResult` trims to the empty string returns the session
record unchanged together with the generic re-prompt. -/
theorem handleInput_empty (s : CallSession) (raw : String) (h : trimStr raw = "") :
    handleInput s raw = (s, didntCatchPrompt) := by
  unfold handleInput
  simp [h]

/-- A non-empty turn appends the trimmed speech to the transcript,
whatever the stage does afterwards. -/
theorem handleInput_push (s : CallSession) (raw : String) (h : ¬ trimStr raw = "") :
    (handleInput s raw).1.transcript = s.transcript ++ [trimStr raw] := by
  unfold handleInput
  simp only [if_neg h]
  split_ifs <;> rfl

/-- At stage `need_category`, a turn matching a cue in each hint set and
containing none of the four direct-answer words leaves the stage and the
collected data unchanged. -/
theorem step_ambiguousCategory (s : CallSession) (raw : String)
    (hstage : s.stage = "need_category")
    (hd : domesticHints.any (fun x => includesStr (lowerStr (trimStr raw)) x) = true)
    (hc : commercialHints.any (fun x => includesStr (lowerStr (trimStr raw)) x) = true)
    (hhome : includesStr (lowerStr (trimStr raw)) "home" = false)
    (hdom : includesStr (lowerStr (trimStr raw)) "domestic" = false)
    (hbus : includesStr (lowerStr (trimStr raw)) "business" = false)
    (hcom : includesStr (lowerStr (trimStr raw)) "commercial" = false) :
    (handleInput s raw).1.stage = "need_category" ∧ (handleInput s raw).1.data = s.data := by
  have hcat : categoryOf (trimStr raw) = "" := by
    unfold categoryOf detectCategory
    simp [hd, hc, hhome, hdom, hbus, hcom]
  by_cases h : trimStr raw = ""
  · rw [handleInput_empty s raw h]
    exact ⟨hstage, rfl⟩
  · unfold handleInput
    simp only [if_neg h]
    simp [hstage, hcat]

/-- Away from stage `need_category`, a turn never touches
`data.service_category` and never moves the stage back to `need_category`. -/
theorem step_serviceCategory_preserved (s : CallSession) (raw : String)
    (h : s.stage ≠ "need_category") :
    (handleInput s raw).1.data.service_category = s.data.service_category ∧
    (handleInput s raw).1.stage ≠ "need_category" := by
  by_cases he : trimStr raw = ""
  · rw [handleInput_empty s raw he]
    exact ⟨rfl, h⟩
  · unfold handleInput
    simp only [if_neg he]
    split_ifs <;>
      first
        | exact absurd (by assumption) h
        | exact ⟨rfl, h⟩
        | exact ⟨rfl, by simp⟩

/-- The invariant "`service_category` unset, or the stage has left
`need_category`" is preserved by every turn. -/
theorem step_serviceCategory_inv (s : CallSession) (raw : String)
    (h : s.data.service_category = none ∨ s.stage ≠ "need_category") :
    (handleInput s raw).1.data.service_category = none ∨
      (handleInput s raw).1.stage ≠ "need_category" := by
  rcases h with h | h
  · by_cases hs : s.stage = "need_category"
    · by_cases he : trimStr raw = ""
      · rw [handleInput_empty s raw he]
        exact Or.inl h
      · unfold handleInput
        simp only [if_neg he]
        split_ifs <;>
          first
            | exact Or.inl h
            | exact Or.inr (by simp)
    · exact Or.inr (step_serviceCategory_preserved s raw hs).2
  · exact Or.inr (step_serviceCategory_preserved s raw h).2

/-- Any sequence of turns starting away from `need_category` preserves
`service_category` and stays away from `need_category`. -/
theorem runTurns_serviceCategory (raws : List String) :
    ∀ (s : CallSession), s.stage ≠ "need_category" →
      (runTurns s raws).data.service_category = s.data.service_category ∧
      (runTurns s raws).stage ≠ "need_category" := by
  induction raws with
  | nil => exact fun s h => ⟨rfl, h⟩
  | cons r rs ih =>
    intro s h
    have h1 := step_serviceCategory_preserved s r h
    have h2 := ih (handleInput s r).1 h1.2
    exact ⟨h2.1.trans h1.1, h2.2⟩

/-- Every session reachable from `/call/start` satisfies the invariant:
either `service_category` is still unset, or the stage has left
`need_category` for good. -/
theorem runTurns_inv_startSession (raws : List String) :
    (runTurns startSession raws).data.service_category = none ∨
      (runTurns startSession raws).stage ≠ "need_category" := by
  have haux : ∀ (rs : List String) (s : CallSession),
      (s.data.service_category = none ∨ s.stage ≠ "need_category") →
      ((runTurns s rs).data.service_category = none ∨
        (runTurns s rs).stage ≠ "need_category") := by
    intro rs
    induction rs with
    | nil => exact fun s h => h
    | cons r rs ih => exact fun s h => ih (handleInput s r).1 (step_serviceCategory_inv s r h)
  exact haux raws startSession (Or.inl rfl)

/-- Turn sequences compose. -/
theorem runTurns_append (a b : List String) : ∀ s : CallSession,
    runTurns s (a ++ b) = runTurns (runTurns s a) b := by
  induction a with
  | nil => exact fun s => rfl
  | cons r rs ih =>
    intro s
    simp only [List.cons_append, runTurns]
    exact ih _

/-! ## Claims -/

/-- C1 counterexample: the recognized text "home business" matches a phrase in
the domestic cue set ("home") and a phrase in the commercial cue set
("business"), yet the `need_category` extraction does not fail: the
direct-answer fallback fires and the turn advances the stage to
`need_service_type`, writing `service_category = "commercial"`. -/
theorem C1_counterexample :
    (domesticHints.any fun x => includesStr (lowerStr (trimStr "home business")) x) = true ∧
    (commercialHints.any fun x => includesStr (lowerStr (trimStr "home business")) x) = true ∧
    startSession.stage = "need_category" ∧
    (handleInput startSession "home business").1.stage = "need_service_type" ∧
    (handleInput startSession "home business").1.data.service_category = some "commercial" := by
  decide

/-- C1 (amended): for every turn at stage `need_category` whose recognized
text matches at least one phrase in the domestic cue set and at least one
phrase in the commercial cue set, and which contains none of the four
direct-answer words "home", "domestic", "business", "commercial", the
category extraction fails: the stage stays `need_category` and the
collected data (in particular `service_category`) is unchanged, on every
number of repetitions of the turn. -/
theorem C1_ambiguous_category_never_advances (s : CallSession) (raw : String)
    (hstage : s.stage = "need_category")
    (hd : domesticHints.any (fun x => includesStr (lowerStr (trimStr raw)) x) = true)
    (hc : commercialHints.any (fun x => includesStr (lowerStr (trimStr raw)) x) = true)
    (hhome : includesStr (lowerStr (trimStr raw)) "home" = false)
    (hdom : includesStr (lowerStr (trimStr raw)) "domestic" = false)
    (hbus : includesStr (lowerStr (trimStr raw)) "business" = false)
    (hcom : includesStr (lowerStr (trimStr raw)) "commercial" = false) :
    ∀ n : Nat, (runTurns s (List.replicate n raw)).stage = "need_category" ∧
               (runTurns s (List.replicate n raw)).data = s.data := by
  intro n
  induction n generalizing s with
  | zero => exact ⟨hstage, rfl⟩
  | succ n ih =>
    have h1 := step_ambiguousCategory s raw hstage hd hc hhome hdom hbus hcom
    rw [List.replicate_succ]
    simp only [runTurns]
    have h2 := ih (handleInput s raw).1 h1.1
    exact ⟨h2.1, h2.2.trans h1.2⟩

/-- C1 witness: "my house or the office" matches both cue sets, contains no
direct-answer word, and three repetitions leave a fresh session at
`need_category` with its data untouched. -/
theorem C1_ambiguous_category_never_advances_witness :
    ((domesticHints.any fun x => includesStr (lowerStr (trimStr "my house or the office")) x) = true ∧
     (commercialHints.any fun x => includesStr (lowerStr (trimStr "my house or the office")) x) = true) ∧
    (runTurns startSession (List.replicate 3 "my house or the office")).stage = "need_category" ∧
    (runTurns startSession (List.replicate 3 "my house or the office")).data = startSession.data :=
  ⟨⟨by decide, by decide⟩,
   C1_ambiguous_category_never_advances startSession "my house or the office" rfl
     (by decide) (by decide) (by decide) (by decide) (by decide) (by decide) 3⟩

/-- C2: every system-authored prompt containing a currency marker
(`$`, "usd", "dollar", "bucks", case-insensitively) is replaced by the fixed
pounds-only clarification prompt — never passed through — and every prompt
without a marker is passed through unchanged; this holds for the sanitizer
of both drafts (`enforceGbpSpeech` of `server.js`, `ensureGbpOnly` of
`part_000`). -/
theorem C2_output_sanitization_total (t : String) :
    (containsDollar t = true →
        enforceGbpSpeech t = gbpFixedPrompt ∧ enforceGbpSpeech t ≠ t ∧
        ensureGbpOnly t = gbpFixedPrompt2 ∧ ensureGbpOnly t ≠ t) ∧
    (containsDollar t = false →
        enforceGbpSpeech t = t ∧ ensureGbpOnly t = t) := by
  constructor
  · intro hc
    have hne : t ≠ "" := by
      intro he
      rw [he] at hc
      exact absurd hc (by decide)
    have e1 : enforceGbpSpeech t = gbpFixedPrompt := by
      simp [enforceGbpSpeech, hne, hc]
    have e2 : ensureGbpOnly t = gbpFixedPrompt2 := by
      simp [ensureGbpOnly, hc]
    refine ⟨e1, ?_, e2, ?_⟩
    · rw [e1]
      intro he
      rw [← he] at hc
      exact absurd hc (by decide)
    · rw [e2]
      intro he
      rw [← he] at hc
      exact absurd hc (by decide)
  · intro hc
    constructor
    · unfold enforceGbpSpeech
      split_ifs <;> simp_all
    · simp [ensureGbpOnly, hc]

/-- C2 witness: a marker-bearing string is replaced (by each draft's fixed
prompt) and a marker-free prompt passes through unchanged. -/
theorem C2_output_sanitization_total_witness :
    (enforceGbpSpeech "That will be 50 dollars" = gbpFixedPrompt ∧
     enforceGbpSpeech "That will be 50 dollars" ≠ "That will be 50 dollars" ∧
     ensureGbpOnly "That will be 50 dollars" = gbpFixedPrompt2 ∧
     ensureGbpOnly "That will be 50 dollars" ≠ "That will be 50 dollars") ∧
    (enforceGbpSpeech propertyPrompt = propertyPrompt ∧
     ensureGbpOnly propertyPrompt = propertyPrompt) :=
  ⟨(C2_output_sanitization_total "That will be 50 dollars").1 (by decide),
   (C2_output_sanitization_total propertyPrompt).2 (by decide)⟩

/-- C3: across every turn, the stage either stays exactly where it is or
moves to a strictly later stage in the forward order
`start, need_category, need_service_type, need_job_type,
need_property_and_postcode, next`; it never moves backwards. -/
theorem C3_stage_monotone (s : CallSession) (raw : String) :
    (handleInput s raw).1.stage = s.stage ∨
      stageIdx s.stage < stageIdx (handleInput s raw).1.stage := by
  by_cases h : trimStr raw = ""
  · rw [handleInput_empty s raw h]
    left
    rfl
  · unfold handleInput
    simp only [if_neg h]
    split_ifs <;> first | (left; rfl) | (right; simp_all [stageIdx])

/-- C4 counterexample: with a session that has reached `need_job_type` on the
commercial path, the turn "one off but maybe ongoing" matches the one-time
cue set and the regular cue set at once, yet extraction does not fail: the
second write wins, `job_type = "regular"` is recorded and the stage
advances. -/
theorem C4_counterexample :
    (runTurns startSession ["office", "deep clean"]).stage = "need_job_type" ∧
    oneTimeMatch (lowerStr (trimStr "one off but maybe ongoing")) = true ∧
    regularMatch (lowerStr (trimStr "one off but maybe ongoing")) = true ∧
    (handleInput (runTurns startSession ["office", "deep clean"])
        "one off but maybe ongoing").1.stage = "need_property_and_postcode" ∧
    (handleInput (runTurns startSession ["office", "deep clean"])
        "one off but maybe ongoing").1.data.job_type = some "regular" := by
  decide

/-- C4 (amended): at stage `need_job_type`, a turn matching exactly one
cadence cue set writes that cadence (`one_time` or `regular`) and advances
the stage; a turn matching neither set, when `job_type` is still unset,
writes nothing, keeps the stage at `need_job_type` and re-prompts; but a
turn matching both cue sets is not treated as ambiguous: the regular check
runs second and overwrites, so `job_type = "regular"` is written and the
stage advances. -/
theorem C4_job_type_cadence_extraction (s : CallSession) (raw : String)
    (hstage : s.stage = "need_job_type") (hne : ¬ trimStr raw = "") :
    (oneTimeMatch (lowerStr (trimStr raw)) = true →
        regularMatch (lowerStr (trimStr raw)) = true →
        (handleInput s raw).1.data.job_type = some "regular" ∧
        (handleInput s raw).1.stage = "need_property_and_postcode") ∧
    (oneTimeMatch (lowerStr (trimStr raw)) = true →
        regularMatch (lowerStr (trimStr raw)) = false →
        (handleInput s raw).1.data.job_type = some "one_time" ∧
        (handleInput s raw).1.stage = "need_property_and_postcode") ∧
    (oneTimeMatch (lowerStr (trimStr raw)) = false →
        regularMatch (lowerStr (trimStr raw)) = true →
        (handleInput s raw).1.data.job_type = some "regular" ∧
        (handleInput s raw).1.stage = "need_property_and_postcode") ∧
    (oneTimeMatch (lowerStr (trimStr raw)) = false →
        regularMatch (lowerStr (trimStr raw)) = false →
        falsy s.data.job_type = true →
        (handleInput s raw).1.data = s.data ∧
        (handleInput s raw).1.stage = "need_job_type" ∧
        (handleInput s raw).2 = jobReprompt) := by
  refine ⟨?_, ?_, ?_, ?_⟩ <;> intro h1 h2
  · unfold handleInput
    simp only [if_neg hne]
    simp [hstage, h1, h2, falsy]
  · unfold handleInput
    simp only [if_neg hne]
    simp [hstage, h1, h2, falsy]
  · unfold handleInput
    simp only [if_neg hne]
    simp [hstage, h1, h2, falsy]
  · intro h3
    unfold handleInput
    simp only [if_neg hne]
    simp [hstage, h1, h2, h3]

/-- C4 witness: a both-sets turn at `need_job_type` writes `regular` and
advances (instantiating the first conjunct at a concrete session). -/
theorem C4_job_type_cadence_extraction_witness :
    (handleInput ⟨[], "need_job_type", {}⟩ "one off then ongoing").1.data.job_type
      = some "regular" ∧
    (handleInput ⟨[], "need_job_type", {}⟩ "one off then ongoing").1.stage
      = "need_property_and_postcode" :=
  (C4_job_type_cadence_extraction ⟨[], "need_job_type", {}⟩ "one off then ongoing"
      rfl (by decide)).1 (by decide) (by decide)

/-- C5 counterexample: the turn "zzz" at `need_category` is an extraction
failure with text present — stage and collected data are unchanged and the
clarifying re-prompt is returned — yet the session record is not unchanged:
the transcript grows by one entry, so the claim as stated is false. -/
theorem C5_counterexample :
    trimStr "zzz" ≠ "" ∧
    (handleInput startSession "zzz").1.stage = startSession.stage ∧
    (handleInput startSession "zzz").1.data = startSession.data ∧
    (handleInput startSession "zzz").2 = categoryReprompt ∧
    (handleInput startSession "zzz").1.transcript ≠ startSession.transcript := by
  decide

/-- C5 (amended): for every non-empty turn on which the current stage's
extraction fails (`need_category` with no accepted category; `need_job_type`
with neither cadence cue and `job_type` still falsy), the stage and the
collected data are unchanged and the response is that stage's clarifying
re-prompt — but the transcript grows by exactly one entry (the trimmed
speech), because the push happens before the stage logic. -/
theorem C5_extraction_failure_reprompt (s : CallSession) (raw : String)
    (hne : ¬ trimStr raw = "") :
    (s.stage = "need_category" → categoryOf (trimStr raw) = "" →
        (handleInput s raw).1.stage = s.stage ∧
        (handleInput s raw).1.data = s.data ∧
        (handleInput s raw).1.transcript = s.transcript ++ [trimStr raw] ∧
        (handleInput s raw).2 = categoryReprompt) ∧
    (s.stage = "need_job_type" → oneTimeMatch (lowerStr (trimStr raw)) = false →
        regularMatch (lowerStr (trimStr raw)) = false → falsy s.data.job_type = true →
        (handleInput s raw).1.stage = s.stage ∧
        (handleInput s raw).1.data = s.data ∧
        (handleInput s raw).1.transcript = s.transcript ++ [trimStr raw] ∧
        (handleInput s raw).2 = jobReprompt) := by
  constructor
  · intro hs hcat
    unfold handleInput
    simp only [if_neg hne]
    simp [hs, hcat]
  · intro hs h1 h2 h3
    unfold handleInput
    simp only [if_neg hne]
    simp [hs, h1, h2, h3]

/-- C5 witness: "something unclear" fails category extraction on a fresh
session; stage and data are unchanged, the transcript grows by one, and the
category re-prompt is returned. -/
theorem C5_extraction_failure_reprompt_witness :
    (handleInput startSession "something unclear").1.stage = startSession.stage ∧
    (handleInput startSession "something unclear").1.data = startSession.data ∧
    (handleInput startSession "something unclear").1.transcript
      = startSession.transcript ++ [trimStr "something unclear"] ∧
    (handleInput startSession "something unclear").2 = categoryReprompt :=
  (C5_extraction_failure_reprompt startSession "something unclear" (by decide)).1
    rfl (by decide)

/-- C6 counterexample: the raw recognized text " hello " is non-empty, the
transcript grows by one entry, but the entry is the trimmed string "hello",
not the raw input delivered by the transport layer, so the claim as stated
is false. -/
theorem C6_counterexample :
    (" hello " : String) ≠ "" ∧
    (handleInput startSession " hello ").1.transcript = ["hello"] ∧
    ("hello" : String) ≠ " hello " := by
  decide

/-- C6 (amended): for every turn whose recognized text is non-empty after
trimming, the transcript grows by exactly one entry, equal to the trimmed
recognized text; a whitespace-only input trims to empty and appends
nothing. -/
theorem C6_transcript_growth (s : CallSession) (raw : String) :
    (trimStr raw ≠ "" →
        (handleInput s raw).1.transcript = s.transcript ++ [trimStr raw]) ∧
    (trimStr raw = "" → (handleInput s raw).1.transcript = s.transcript) := by
  constructor
  · exact handleInput_push s raw
  · intro h
    rw [handleInput_empty s raw h]

/-- C6 witness: a padded input grows the transcript by its trimmed form. -/
theorem C6_transcript_growth_witness :
    trimStr "  need a cleaner  " ≠ "" ∧
    (handleInput startSession "  need a cleaner  ").1.transcript
      = startSession.transcript ++ [trimStr "  need a cleaner  "] :=
  ⟨by decide, (C6_transcript_growth startSession "  need a cleaner  ").1 (by decide)⟩

/-- C7: a turn with empty recognized text leaves the session record (stage,
data and transcript) entirely unchanged and returns the stage-independent
generic re-prompt; a second empty turn returns the identical pair, so two
consecutive empty turns produce the same prompt text. -/
theorem C7_empty_turn_identity (s : CallSession) (raw raw2 : String)
    (h : trimStr raw = "") (h2 : trimStr raw2 = "") :
    handleInput s raw = (s, didntCatchPrompt) ∧
    handleInput (handleInput s raw).1 raw2 = (s, didntCatchPrompt) := by
  have e1 := handleInput_empty s raw h
  refine ⟨e1, ?_⟩
  rw [e1]
  exact handleInput_empty s raw2 h2

/-- C7 witness: a whitespace-only turn followed by an empty turn, both
no-ops with the identical generic prompt. -/
theorem C7_empty_turn_identity_witness :
    handleInput startSession "   " = (startSession, didntCatchPrompt) ∧
    handleInput (handleInput startSession "   ").1 "" = (startSession, didntCatchPrompt) :=
  C7_empty_turn_identity startSession "   " "" (by decide) (by decide)

/-- C8: the commercial end-to-end path — from a freshly started session,
"office" writes `service_category = "commercial"` and advances to
`need_service_type`; "deep clean" is stored as the commercial service type
and advances to `need_job_type`; "just a one-off" writes
`job_type = "one_time"` and advances to `need_property_and_postcode`. -/
theorem C8_commercial_path :
    (runTurns startSession ["office"]).data.service_category = some "commercial" ∧
    (runTurns startSession ["office"]).stage = "need_service_type" ∧
    (runTurns startSession ["office", "deep clean"]).data.commercial_service_type
      = some "deep clean" ∧
    (runTurns startSession ["office", "deep clean"]).stage = "need_job_type" ∧
    (runTurns startSession ["office", "deep clean", "just a one-off"]).data.job_type
      = some "one_time" ∧
    (runTurns startSession ["office", "deep clean", "just a one-off"]).stage
      = "need_property_and_postcode" := by
  decide

/-- C9: a session created lazily by the input handler starts at stage
"start", which matches no stage branch: every turn with recognized text
returns the default fallback prompt and leaves stage and data unchanged,
and any sequence of turns leaves such a session with stage "start" and no
collected field. -/
theorem C9_lazy_session_never_collects :
    initialSession.stage = "start" ∧
    (∀ (s : CallSession) (raw : String), s.stage = "start" →
        (handleInput s raw).1.stage = "start" ∧
        (handleInput s raw).1.data = s.data ∧
        (trimStr raw ≠ "" → (handleInput s raw).2 = defaultPrompt)) ∧
    (∀ raws : List String,
        (runTurns initialSession raws).stage = "start" ∧
        (runTurns initialSession raws).data = initialSession.data) := by
  have hstep : ∀ (s : CallSession) (raw : String), s.stage = "start" →
      (handleInput s raw).1.stage = "start" ∧ (handleInput s raw).1.data = s.data ∧
      (trimStr raw ≠ "" → (handleInput s raw).2 = defaultPrompt) := by
    intro s raw hs
    by_cases h : trimStr raw = ""
    · rw [handleInput_empty s raw h]
      exact ⟨hs, rfl, fun hne => absurd h hne⟩
    · unfold handleInput
      simp only [if_neg h]
      simp [hs]
  refine ⟨rfl, hstep, ?_⟩
  have haux : ∀ (raws : List String) (s : CallSession), s.stage = "start" →
      (runTurns s raws).stage = "start" ∧ (runTurns s raws).data = s.data := by
    intro raws
    induction raws with
    | nil => exact fun s hs => ⟨hs, rfl⟩
    | cons r rs ih =>
      intro s hs
      have h1 := hstep s r hs
      have h2 := ih (handleInput s r).1 h1.1
      exact ⟨h2.1, h2.2.trans h1.2.1⟩
  exact fun raws => haux raws initialSession rfl

/-- C9 witness: a lazily created session fed "my office please" and then a
two-turn sequence stays at stage "start" with empty data, answering the
default fallback prompt. -/
theorem C9_lazy_session_never_collects_witness :
    (handleInput initialSession "my office please").1.stage = "start" ∧
    (handleInput initialSession "my office please").1.data = initialSession.data ∧
    (handleInput initialSession "my office please").2 = defaultPrompt ∧
    (runTurns initialSession ["office", "home"]).stage = "start" ∧
    (runTurns initialSession ["office", "home"]).data = initialSession.data := by
  have h := C9_lazy_session_never_collects
  obtain ⟨-, hstep, hrun⟩ := h
  obtain ⟨a, b, c⟩ := hstep initialSession "my office please" rfl
  obtain ⟨d, e⟩ := hrun ["office", "home"]
  exact ⟨a, b, c (by decide), d, e⟩

/-- C10: `service_category` is written only by the `need_category` branch —
away from that stage a turn never changes the field — and once a session
reachable from `/call/start` has the field set, every further turn sequence
preserves its value (the machine never re-enters `need_category`); in the
second draft (`part_000`) the field is guarded by a not-yet-set test, so a
set value is never overwritten there either. -/
theorem C10_service_category_write_once :
    (∀ (s : CallSession) (raw : String), s.stage ≠ "need_category" →
        (handleInput s raw).1.data.service_category = s.data.service_category) ∧
    (∀ (raws more : List String) (v : String),
        (runTurns startSession raws).data.service_category = some v →
        (runTurns startSession (raws ++ more)).data.service_category = some v) ∧
    (∀ (s : CallSession2) (raw : String) (v : String), v ≠ "" →
        s.data.service_category = some v →
        (handleInput2 s raw).1.data.service_category = some v) := by
  refine ⟨fun s raw h => (step_serviceCategory_preserved s raw h).1, ?_, ?_⟩
  · intro raws more v hv
    have hstage : (runTurns startSession raws).stage ≠ "need_category" := by
      rcases runTurns_inv_startSession raws with h | h
      · rw [hv] at h
        exact absurd h (by simp)
      · exact h
    rw [runTurns_append raws more startSession]
    rw [(runTurns_serviceCategory more (runTurns startSession raws) hstage).1, hv]
  · intro s raw v hv hsc
    obtain ⟨st, tr, sc, sty⟩ := s
    simp only at hsc
    subst hsc
    by_cases he : trimStr raw = ""
    · unfold handleInput2
      simp [he]
    · unfold handleInput2
      simp only [if_neg he]
      have hf : falsy (some v) = false := by simp [falsy, hv]
      simp only [hf]
      split_ifs <;> first | rfl | contradiction

/-- C10 witness: a `need_service_type` turn keeps `service_category`; the
commercial value set by "office" survives two more turns; the `part_000`
guard keeps an already-set "domestic" on a later "office" turn. -/
theorem C10_service_category_write_once_witness :
    (handleInput ⟨["office"], "need_service_type",
        { service_category := some "commercial" }⟩ "deep clean").1.data.service_category
      = some "commercial" ∧
    (runTurns startSession (["office"] ++ ["deep clean", "one off"])).data.service_category
      = some "commercial" ∧
    (handleInput2 ⟨"start", ["my home"],
        { service_category := some "domestic" }⟩ "office").1.data.service_category
      = some "domestic" :=
  ⟨C10_service_category_write_once.1 _ "deep clean" (by decide),
   C10_service_category_write_once.2.1 ["office"] ["deep clean", "one off"] "commercial" (by decide),
   C10_service_category_write_once.2.2 _ "office" "domestic" (by decide) rfl⟩
